import Mathlib

/-
Verification of the piano_typer keystroke decoding and held-state engine.

The definitions below are a shallow embedding of the Python sources:
  packaging.py   (class Keystroke: __init__, __eq__, __hash__)
  midi.py        (create_keystroke, get_keystrokes)
  main.py        (Program.update_held_keystrokes, process_button,
                  process_cursor, _logic_tick)
  piano_control.py (cursor_loop, one tick of the threaded variant)

Python exceptions are modelled with Except, Python dicts with association
lists, and the Python set of held keystrokes with a duplicate-free list.
-/

/-- Python exceptions raised by the embedded code. -/
inductive PyExn where
  | valueError (msg : String)
  | attributeError (name : String)
  | keyError (key : String)
  deriving Repr, DecidableEq

/-- Note table from packaging.py: `NOTES = ("C", "C#", ..., "B")`. -/
def NOTES : List String :=
  ["C", "C#", "D", "D#"] ++ ["E", "F", "F#", "G"] ++ ["G#", "A", "A#", "B"]

/-- ASCII uppercasing of a character, as Python str.upper acts on the
ASCII-only note names passed to Keystroke. -/
def pyUpperChar (c : Char) : Char :=
  if 97 ≤ c.toNat ∧ c.toNat ≤ 122 then Char.ofNat (c.toNat - 32) else c

/-- ASCII uppercasing of a string (Python note.upper() on note names). -/
def pyUpper (s : String) : String :=
  ⟨s.data.map pyUpperChar⟩

/-- Instance state of a packaging.py Keystroke after a successful
__init__: attributes note, octave, press, full_note.  The octave is an
integer because __init__ receives arbitrary Python ints. -/
structure Keystroke where
  note : String
  octave : Int
  press : Bool
  full_note : String
  deriving Repr, DecidableEq

/-- Keystroke.__init__ from packaging.py.  It uppercases the note and
checks it against NOTES (ValueError otherwise).  For a negative octave the
source executes raise ValueError(f"Invalid octave: {self.octave}"), but at
that point self.octave has not been assigned yet (the assignment is on the
following line), so evaluating the message raises AttributeError for the
name octave instead of the intended ValueError. -/
def keystroke_init (note : String) (octave : Int) (press : Bool) :
    Except PyExn Keystroke :=
  let noteU := pyUpper note
  if ¬ (noteU ∈ NOTES) then
    .error (.valueError ("Invalid note: " ++ noteU ++ ", available notes: "
      ++ String.intercalate ", " NOTES))
  else if octave < 0 then
    .error (.attributeError "octave")
  else
    .ok { note := noteU, octave := octave, press := press,
          full_note := noteU ++ toString octave }

/-- Values that reach the embedded comparisons: Keystroke instances and the
strings coming from the keybinding configuration. -/
inductive PyVal where
  | ks (k : Keystroke)
  | str (s : String)
  deriving Repr, DecidableEq

/-- Python equality v == w between the values above, following CPython rich
comparison.  Keystroke.__eq__ compares full_note when the other operand is
a Keystroke and returns False otherwise; str.__eq__ against a Keystroke
returns NotImplemented, after which the reflected Keystroke.__eq__ again
returns False.  So a Keystroke never equals a string, in either order. -/
def pyEq : PyVal → PyVal → Bool
  | .ks a, .ks b => a.full_note == b.full_note
  | .ks _, .str _ => false
  | .str _, .ks _ => false
  | .str a, .str b => a == b

/-- Attribute lookup on a Keystroke instance.  Only the four attributes
assigned in packaging.py __init__ exist; in particular the names is_press
and details that main.py reads do not, and looking them up raises
AttributeError. -/
inductive AttrVal where
  | str (s : String)
  | int (i : Int)
  | bool (b : Bool)
  deriving Repr, DecidableEq

def Keystroke.getattr (k : Keystroke) : String → Except PyExn AttrVal
  | "note" => .ok (.str k.note)
  | "octave" => .ok (.int k.octave)
  | "press" => .ok (.bool k.press)
  | "full_note" => .ok (.str k.full_note)
  | n => .error (.attributeError n)

/-- Raw MIDI event data as read from the device: [status, data1, data2]
(pygame delivers nonnegative byte values). -/
structure MidiEvent where
  status : Nat
  data1 : Nat
  data2 : Nat
  deriving Repr, DecidableEq

/-- midi.py create_keystroke: octave, note_index = divmod(event[1],
len(Keystroke.NOTES)); is_press = event[2] != 64; then the Keystroke
constructor is called on NOTES[note_index]. -/
def create_keystroke (event : MidiEvent) : Except PyExn Keystroke :=
  let octave := event.data1 / NOTES.length
  let note_index := event.data1 % NOTES.length
  let press := event.data2 != 64
  keystroke_init (NOTES.get ⟨note_index, Nat.mod_lt _ (by decide)⟩)
    (octave : Int) press

/-- Result of midi_device.read in midi.py get_keystrokes: either a list of
events (timestamps already stripped) or a raised exception. -/
inductive ReadResult where
  | events (l : List MidiEvent)
  | raised (e : PyExn)
  deriving Repr, DecidableEq

/-- State of the MIDI device for one get_keystrokes call: what poll()
returns and what read() would produce. -/
structure MidiDevice where
  poll : Bool
  read : ReadResult
  deriving Repr, DecidableEq

/-- midi.py get_keystrokes: returns [] when poll() is false; otherwise
reads events, filters out clock events (status 248) and zero velocities,
and parses the rest.  The whole body is wrapped in try/except Exception
which prints and returns [], so a raised read or parse error also yields
[]. -/
def get_keystrokes (midi_device : MidiDevice) : List Keystroke :=
  if !midi_device.poll then []
  else
    match midi_device.read with
    | .raised _ => []
    | .events evs =>
      match (evs.filter (fun e => e.status != 248 && e.data2 != 0)).mapM
          create_keystroke with
      | .ok ks => ks
      | .error _ => []

/-- Per-event behaviour of the comprehension in get_keystrokes: the codec
discards clock events and zero velocities, and parses everything else. -/
def decode_event (e : MidiEvent) : Option (Except PyExn Keystroke) :=
  if e.status != 248 && e.data2 != 0 then some (create_keystroke e) else none

/-- The keybinding configuration loaded from keybinds.json in main.py:
string NoteId keys mapped to keyboard key names, mouse button names and
2D direction vectors, plus the quit and slow NoteIds.  Dicts are modelled
as association lists with distinct keys. -/
structure Keybinds where
  keyboard : List (String × String)
  mouse : List (String × String)
  cursor : List (String × (Int × Int))
  quit : String
  slow : String
  deriving Repr, DecidableEq

/-- Membership test keystroke in d for a dict d whose keys are strings
(CPython compares the stored key with the query under rich comparison;
hash(keystroke) equals hash(full_note), so buckets can collide and the
comparison pyEq decides membership). -/
def strDictHasKeystroke (keys : List String) (k : Keystroke) : Bool :=
  keys.any (fun s => pyEq (.str s) (.ks k))

/-- Dict lookup d[key] for a string key, raising KeyError when absent. -/
def strDictGet (d : List (String × String)) (key : String) :
    Except PyExn String :=
  match d.find? (fun p => p.fst == key) with
  | some p => .ok p.snd
  | none => .error (.keyError key)

/-- Dict lookup for the cursor table (values are direction vectors). -/
def cursorDictGet (d : List (String × (Int × Int))) (key : String) :
    Except PyExn (Int × Int) :=
  match d.find? (fun p => p.fst == key) with
  | some p => .ok p.snd
  | none => .error (.keyError key)

/-- Membership of one held Keystroke among others (set lookup; stored and
query values are both Keystrokes, compared by full_note). -/
def heldContains (held : List Keystroke) (k : Keystroke) : Bool :=
  held.any (fun h => pyEq (.ks h) (.ks k))

/-- Membership test Keybinds.SLOW in self.held_keystrokes: a string
queried against a set of Keystrokes (never true, see pyEq). -/
def heldContainsStr (held : List Keystroke) (s : String) : Bool :=
  held.any (fun h => pyEq (.ks h) (.str s))

/-- Python set.add on the held set: a no-op when an equal element (same
full_note) is already present. -/
def heldAdd (held : List Keystroke) (k : Keystroke) : List Keystroke :=
  if heldContains held k then held else held ++ [k]

/-- Python set.remove on the held set (called only under a membership
guard in the source). -/
def heldRemove (held : List Keystroke) (k : Keystroke) : List Keystroke :=
  held.filter (fun h => !(pyEq (.ks h) (.ks k)))

/-- Python truthiness of an attribute value, for the branch conditions of
main.py. -/
def attrAsBool : AttrVal → Bool
  | .bool b => b
  | .int i => i != 0
  | .str s => !s.isEmpty

/-- main.py Program.update_held_keystrokes.  The source branches on
keystroke.is_press, but packaging.py Keystroke instances only define the
attribute press, so the very first attribute read raises AttributeError
and the held set is never mutated. -/
def update_held_keystrokes (held : List Keystroke) (keystroke : Keystroke) :
    Except PyExn (List Keystroke) := do
  let ip ← keystroke.getattr "is_press"
  if attrAsBool ip then
    return heldAdd held keystroke
  else if !(attrAsBool ip) && heldContains held keystroke then
    return heldRemove held keystroke
  else
    return held

/-- The device action emitted by main.py Program.process_button. -/
inductive ButtonEffect where
  | keyboardPress (hotkey : String)
  | keyboardRelease (hotkey : String)
  | mousePress (hotkey : String)
  | mouseRelease (hotkey : String)
  deriving Repr, DecidableEq

/-- main.py Program.process_button: if keystroke in Keybinds.KEYBOARD the
hotkey KEYBOARD[str(keystroke)] is pressed or released depending on
keystroke.is_press; elif keystroke in Keybinds.MOUSE the same for the
mouse.  str(keystroke) is full_note (packaging.py __str__).  Returns the
emitted action, none when neither table matches. -/
def process_button (kb : Keybinds) (keystroke : Keystroke) :
    Except PyExn (Option ButtonEffect) := do
  if strDictHasKeystroke (kb.keyboard.map Prod.fst) keystroke then
    let hotkey ← strDictGet kb.keyboard keystroke.full_note
    let ip ← keystroke.getattr "is_press"
    if attrAsBool ip then
      return some (.keyboardPress hotkey)
    else
      return some (.keyboardRelease hotkey)
  else if strDictHasKeystroke (kb.mouse.map Prod.fst) keystroke then
    let hotkey ← strDictGet kb.mouse keystroke.full_note
    let ip ← keystroke.getattr "is_press"
    if attrAsBool ip then
      return some (.mousePress hotkey)
    else
      return some (.mouseRelease hotkey)
  else
    return none

/-- Python round() (round half to even) applied to the exact value of the
fraction num / den with positive denominator.  main.py computes
round(sensitivity / framerate * speed), whose value is the fraction
(sensitivity * speed) / framerate; the source computes it with binary
floats, which agree with the exact value at the magnitudes configured
here. -/
def pyRound (num den : Int) : Int :=
  let f := Int.fdiv num den
  let rem := num - f * den
  if 2 * rem < den then f
  else if den < 2 * rem then f + 1
  else if f % 2 = 0 then f else f + 1

/-- The sum-and-scale step of main.py process_cursor (lines 136 to 141):
axes = zip(*held_directions); move = (sum(axis) * move_factor for axis in
axes).  Each configured direction is a 2-vector, so the two axes are the
lists of first and of second components. -/
def sum_and_scale (held_directions : List (Int × Int)) (move_factor : Int) :
    Int × Int :=
  ((held_directions.map Prod.fst).sum * move_factor,
   (held_directions.map Prod.snd).sum * move_factor)

/-- main.py Program.process_cursor: returns none (no mouse.move call) when
no keys are held or no held key passes the cursor-table membership test,
otherwise the relative (move_x, move_y) handed to mouse.move.  speed is 1
when Keybinds.SLOW is found in the held set and 5 otherwise;
move_factor = round(sensitivity / framerate * speed). -/
def process_cursor (kb : Keybinds) (sensitivity framerate : Int)
    (held : List Keystroke) : Except PyExn (Option (Int × Int)) := do
  if held.isEmpty then
    return none
  let kept := held.filter
    (fun k => strDictHasKeystroke (kb.cursor.map Prod.fst) k)
  let held_directions ← kept.mapM (fun k => cursorDictGet kb.cursor k.full_note)
  if held_directions.isEmpty then
    return none
  let speed : Int := if heldContainsStr held kb.slow then 1 else 5
  let move_factor := pyRound (sensitivity * speed) framerate
  return some (sum_and_scale held_directions move_factor)

/-- Mutable per-run state of main.py Program used by the logic tick. -/
structure Program where
  PIANO_MODE : Bool
  KEY_LOG : Bool
  sensitivity : Int
  framerate : Int
  held_keystrokes : List Keystroke
  deriving Repr, DecidableEq

/-- The for-loop body of main.py _logic_tick over the decoded keystrokes:
quit check (keystroke == Keybinds.QUIT and not PIANO_MODE, which returns
False from the tick), key logging via keystroke.details() when KEY_LOG,
held-set update, and button dispatch when not PIANO_MODE.  Returns false
paired with the state when the quit branch fired. -/
def process_keystrokes (kb : Keybinds) (p : Program) :
    List Keystroke → Except PyExn (Bool × Program)
  | [] => .ok (true, p)
  | keystroke :: rest => do
    if pyEq (.ks keystroke) (.str kb.quit) && !p.PIANO_MODE then
      return (false, p)
    if p.KEY_LOG then
      let _ ← keystroke.getattr "details"
      pure ()
    let held2 ← update_held_keystrokes p.held_keystrokes keystroke
    let p2 := { p with held_keystrokes := held2 }
    if !p2.PIANO_MODE then
      let _ ← process_button kb keystroke
      pure ()
    process_keystrokes kb p2 rest

/-- main.py Program._logic_tick: returns false (stop the run loop) when
the display is closed or a quit keystroke is dispatched, true otherwise;
in between it processes every decoded keystroke and then the held cursor
movements. -/
def logic_tick (kb : Keybinds) (p : Program) (displayClosed : Bool)
    (keystrokes : List Keystroke) : Except PyExn (Bool × Program) := do
  if displayClosed then
    return (false, p)
  let res ← process_keystrokes kb p keystrokes
  if !res.fst then
    return (false, res.snd)
  let p2 := res.snd
  if !p2.PIANO_MODE then
    let _ ← process_cursor kb p2.sensitivity p2.framerate p2.held_keystrokes
    pure ()
  return (true, p2)

/-- One tick of piano_control.py cursor_loop: for every held direction
whose exact negation is not also held, a mouse.move by the direction
scaled by SENSITIVITY is emitted; directions with their negation held are
skipped. -/
def cursor_tick_moves (held_directions : List (Int × Int))
    (sensitivity : Int) : List (Int × Int) :=
  held_directions.filterMap (fun d =>
    if held_directions.contains (-d.fst, -d.snd) then none
    else some (d.fst * sensitivity, d.snd * sensitivity))

/-! Helper lemmas about the codec. -/

/-- Every entry of the note table is already uppercase, so Python
note.upper() leaves it unchanged. -/
lemma pyUpper_notes : ∀ i : Fin NOTES.length, pyUpper (NOTES.get i) = NOTES.get i := by
  decide

/-- Keystroke.__init__ succeeds on an already-uppercase table note and a
nonnegative octave, storing exactly the given data. -/
lemma keystroke_init_ok (note : String) (oct : Int) (press : Bool)
    (hup : pyUpper note = note) (hmem : note ∈ NOTES) (hoct : 0 ≤ oct) :
    keystroke_init note oct press =
      .ok { note := note, octave := oct, press := press,
            full_note := note ++ toString oct } := by
  simp only [keystroke_init, hup]
  rw [if_neg (by simp [hmem]), if_neg (not_lt.mpr hoct)]

/-- List.get on the note table agrees with getD. -/
lemma notes_get_eq_getD (i : Nat) (h : i < NOTES.length) :
    NOTES.get ⟨i, h⟩ = NOTES.getD i "C" := by
  rw [List.getD_eq_getElem?_getD, List.getElem?_eq_getElem h]
  rfl

/-- midi.py create_keystroke always succeeds and produces exactly the
divmod note and octave together with the velocity flag. -/
lemma create_keystroke_ok (e : MidiEvent) :
    create_keystroke e =
      .ok { note := NOTES.getD (e.data1 % NOTES.length) "C",
            octave := ((e.data1 / NOTES.length : Nat) : Int),
            press := e.data2 != 64,
            full_note := NOTES.getD (e.data1 % NOTES.length) "C"
              ++ toString ((e.data1 / NOTES.length : Nat) : Int) } := by
  unfold create_keystroke
  rw [keystroke_init_ok _ _ _ (pyUpper_notes _) (List.get_mem _ _ _)
    (Int.natCast_nonneg _)]
  rw [notes_get_eq_getD]

/-! Claim theorems. -/

/-- C1: with piano mode off and the configured quit identity the string
"C8", decoding the press MIDI event [144, 96, 100] yields the Keystroke
C octave 8, yet the quit comparison keystroke == Keybinds.QUIT evaluates
to False (Keystroke.__eq__ rejects non-Keystroke operands), so the tick
never takes the quit branch: instead of returning false it crashes on the
subsequent keystroke.details() call with AttributeError.  This refutes
the claim that dispatching the C8 press yields QuitRequested and stops
the loop. -/
theorem quit_check_never_matches :
    create_keystroke ⟨144, 96, 100⟩ =
      .ok { note := "C", octave := 8, press := true, full_note := "C8" } ∧
    pyEq (.ks { note := "C", octave := 8, press := true, full_note := "C8" })
      (.str "C8") = false ∧
    logic_tick ⟨[], [], [], "C8", "G3"⟩
      { PIANO_MODE := false, KEY_LOG := true, sensitivity := 100,
        framerate := 60, held_keystrokes := [] } false
      [{ note := "C", octave := 8, press := true, full_note := "C8" }] =
      .error (.attributeError "details") :=
  ⟨rfl, rfl, rfl⟩

/-- C2: with the keyboard table binding the NoteId "A#4" to the key "w",
neither a press nor a release Keystroke for A#4 dispatches any device
action: the membership test keystroke in Keybinds.KEYBOARD is always
False because the dict keys are strings and Keystroke.__eq__ returns
False for them, so process_button falls through both tables and emits
nothing.  This refutes the claim that the press yields ButtonPress("w")
and the release ButtonRelease("w"). -/
theorem keyboard_binding_never_dispatches :
    strDictHasKeystroke ["A#4"]
      { note := "A#", octave := 4, press := true, full_note := "A#4" } = false ∧
    process_button ⟨[("A#4", "w")], [], [], "C8", "G3"⟩
      { note := "A#", octave := 4, press := true, full_note := "A#4" } = .ok none ∧
    process_button ⟨[("A#4", "w")], [], [], "C8", "G3"⟩
      { note := "A#", octave := 4, press := false, full_note := "A#4" } = .ok none :=
  ⟨rfl, rfl, rfl⟩

/-- C3: for every MIDI event reaching the codec, a zero velocity is
discarded (no Keystroke, also through get_keystrokes), velocity exactly 64
decodes to a release Keystroke, and any other nonzero velocity decodes to
a press Keystroke. -/
theorem decode_velocity_semantics (e : MidiEvent) :
    (e.data2 = 0 → decode_event e = none ∧
      get_keystrokes ⟨true, .events [e]⟩ = []) ∧
    (e.status ≠ 248 → e.data2 = 64 →
      ∃ k, decode_event e = some (.ok k) ∧ k.press = false) ∧
    (e.status ≠ 248 → e.data2 ≠ 0 → e.data2 ≠ 64 →
      ∃ k, decode_event e = some (.ok k) ∧ k.press = true) := by
  refine ⟨fun h0 => ⟨?_, ?_⟩, fun hs h64 => ?_, fun hs h0 h64 => ?_⟩
  · simp [decode_event, h0]
  · simp only [get_keystrokes, List.filter, h0, bne_self_eq_false,
      Bool.and_false]
    rfl
  · rw [show decode_event e = some (create_keystroke e) by
        simp [decode_event, hs, h64], create_keystroke_ok]
    refine ⟨_, rfl, ?_⟩
    simp [h64]
  · rw [show decode_event e = some (create_keystroke e) by
        simp [decode_event, hs, h0], create_keystroke_ok]
    refine ⟨_, rfl, ?_⟩
    simp [h64]

/-- Witness for C3 at the concrete events [144, 60, 0], [144, 60, 64] and
[144, 60, 100]. -/
theorem decode_velocity_semantics_witness :
    (decode_event ⟨144, 60, 0⟩ = none ∧
      get_keystrokes ⟨true, .events [⟨144, 60, 0⟩]⟩ = []) ∧
    (∃ k, decode_event ⟨144, 60, 64⟩ = some (.ok k) ∧ k.press = false) ∧
    (∃ k, decode_event ⟨144, 60, 100⟩ = some (.ok k) ∧ k.press = true) :=
  ⟨(decode_velocity_semantics ⟨144, 60, 0⟩).1 rfl,
   (decode_velocity_semantics ⟨144, 60, 64⟩).2.1 (by decide) rfl,
   (decode_velocity_semantics ⟨144, 60, 100⟩).2.2 (by decide) (by decide) (by decide)⟩

/-- C4: for every data1 in [0, 127] (any status, any velocity) the codec
never raises: the produced Keystroke has octave data1 / 12, note
NOTES[data1 mod 12], press flag velocity != 64, a nonnegative octave and
full_note equal to the note followed by the octave, so the constructor
error branches are unreachable from decode. -/
theorem decode_note_octave_exact (e : MidiEvent) (h : e.data1 ≤ 127) :
    ∃ k : Keystroke, create_keystroke e = .ok k ∧
      k.octave = ((e.data1 / 12 : Nat) : Int) ∧
      k.note = NOTES.getD (e.data1 % 12) "C" ∧
      k.press = (e.data2 != 64) ∧
      0 ≤ k.octave ∧
      k.full_note = k.note ++ toString k.octave := by
  refine ⟨_, create_keystroke_ok e, rfl, rfl, rfl, Int.natCast_nonneg _, rfl⟩

/-- Witness for C4 at the concrete event [144, 61, 100]. -/
theorem decode_note_octave_exact_witness :
    ∃ k : Keystroke, create_keystroke ⟨144, 61, 100⟩ = .ok k ∧
      k.octave = ((61 / 12 : Nat) : Int) ∧
      k.note = NOTES.getD (61 % 12) "C" ∧
      k.press = ((100 : Nat) != 64) ∧
      0 ≤ k.octave ∧
      k.full_note = k.note ++ toString k.octave :=
  decode_note_octave_exact ⟨144, 61, 100⟩ (by decide)

/-- C5: for every held set and every keystroke (press or release),
Program.update_held_keystrokes raises AttributeError before touching the
set: it branches on keystroke.is_press, an attribute that packaging.py
Keystroke instances do not define (the attribute is named press).  So the
claimed idempotent press/release bookkeeping never executes. -/
theorem update_held_keystrokes_always_raises (held : List Keystroke)
    (k : Keystroke) :
    update_held_keystrokes held k = .error (.attributeError "is_press") :=
  rfl

/-- C6: pressing then releasing the same (note, octave) never completes:
although Keystroke identity is indeed by full_note only (a press and its
matching release compare equal, first conjunct), the very first
update_held_keystrokes call raises AttributeError on keystroke.is_press,
so the held set cannot make the claimed round trip. -/
theorem press_release_round_trip_raises :
    pyEq (.ks { note := "E", octave := 4, press := true, full_note := "E4" })
      (.ks { note := "E", octave := 4, press := false, full_note := "E4" }) = true ∧
    update_held_keystrokes []
      { note := "E", octave := 4, press := true, full_note := "E4" } =
      .error (.attributeError "is_press") ∧
    update_held_keystrokes []
      { note := "E", octave := 4, press := false, full_note := "E4" } =
      .error (.attributeError "is_press") :=
  ⟨rfl, rfl, rfl⟩

/-- C7: with sensitivity 100, framerate 60, slow key not held and a single
held keystroke C7 bound to the direction (1, 0) in the cursor table, the
formula round(100 / 60 * 5) does give 8 (first conjunct), but
process_cursor emits no cursor delta at all: the membership test
keystroke in Keybinds.CURSOR compares a Keystroke with the string keys of
the table and is always False, so the held-direction list is empty and the
method returns before moving the mouse.  This refutes the claimed emitted
delta dx = 8, dy = 0. -/
theorem process_cursor_emits_no_move :
    pyRound (100 * 5) 60 = 8 ∧
    process_cursor ⟨[], [], [("C7", (1, 0))], "C8", "G3"⟩ 100 60
      [{ note := "C", octave := 7, press := true, full_note := "C7" }] =
      .ok none :=
  ⟨rfl, rfl⟩

/-- C8: when the held directions are exactly a vector and its negation,
(-1, 0) and (1, 0) in either order, the x motion is zero under both
implemented cancellation policies: the arithmetic summation of main.py
process_cursor scales a zero x sum, and the pairwise-opposite exclusion of
piano_control.py cursor_loop skips both directions and emits no move. -/
theorem opposite_directions_cancel (l : List (Int × Int))
    (h : l = [(-1, 0), (1, 0)] ∨ l = [(1, 0), (-1, 0)]) (mf s : Int) :
    (sum_and_scale l mf).fst = 0 ∧ cursor_tick_moves l s = [] := by
  rcases h with h | h <;> subst h <;> constructor <;>
    simp [sum_and_scale, cursor_tick_moves]

/-- Witness for C8 at the held directions [(-1, 0), (1, 0)] with move
factor 8 and sensitivity 10. -/
theorem opposite_directions_cancel_witness :
    (sum_and_scale [(-1, 0), (1, 0)] 8).fst = 0 ∧
    cursor_tick_moves [(-1, 0), (1, 0)] 10 = [] :=
  opposite_directions_cancel _ (Or.inl rfl) 8 10

/-- C9: get_keystrokes is a total function of the device state (it cannot
raise), and both failure shapes are absorbed as no event: a false poll
returns the empty list, and a read that raises any exception is caught by
the try/except and also returns the empty list. -/
theorem get_keystrokes_absorbs_failures (d : MidiDevice) :
    (d.poll = false → get_keystrokes d = []) ∧
    (∀ exc : PyExn, d.read = .raised exc → get_keystrokes d = []) := by
  constructor
  · intro h
    simp [get_keystrokes, h]
  · intro exc h
    by_cases hp : d.poll <;> simp [get_keystrokes, hp, h]

/-- Witness for C9 on a device with nothing to poll and on a device whose
read raises. -/
theorem get_keystrokes_absorbs_failures_witness :
    get_keystrokes ⟨false, .events []⟩ = [] ∧
    get_keystrokes ⟨true, .raised (.valueError "boom")⟩ = [] :=
  ⟨(get_keystrokes_absorbs_failures ⟨false, .events []⟩).1 rfl,
   (get_keystrokes_absorbs_failures ⟨true, .raised (.valueError "boom")⟩).2
     (.valueError "boom") rfl⟩

/-- C10: Keystroke construction succeeds exactly on a valid (uppercased)
note and nonnegative octave, storing the uppercased note and the
concatenated full_note (third conjunct), and an invalid note raises
ValueError listing the available notes (second conjunct); but for a valid
note with a negative octave the constructor raises AttributeError, not the
claimed ValueError: the error message f-string reads self.octave before
that attribute is assigned (first conjunct). -/
theorem keystroke_init_negative_octave_attribute_error :
    keystroke_init "C" (-1) true = .error (.attributeError "octave") ∧
    keystroke_init "H" 4 true = .error (.valueError
      ("Invalid note: H, available notes: "
        ++ "C, C#, D, D#, E, F, F#, G, G#, A, A#, B")) ∧
    keystroke_init "c#" 3 true =
      .ok { note := "C#", octave := 3, press := true, full_note := "C#3" } :=
  ⟨rfl, rfl, rfl⟩
